import Mathlib

/-!
Shallow embedding of the auto-reply decision engine of bot.py
(class AutoReplyManager: get_response, should_auto_reply; and the
entry point MaryAssistantBot.check_auto_reply), together with the
response catalog and the parameter-dictionary conventions the code
relies on.  Python dictionaries with optional keys are modelled as
records of Option-valued fields; a Python value stored under a key is
either the constant None or a string (PyStr).  The wall-clock read
datetime.now(pytz.timezone(tz)) performed inside both engine functions
is modelled by an explicit clock argument mapping the timezone value to
a local time (weekday, hour), with weekday 0 = Monday .. 6 = Sunday as
in Python's datetime.weekday().
-/

namespace MaryBot

/-- A Python value held in one of the parameter dictionaries: either the
constant None or a string. -/
inductive PyStr where
  | pynone : PyStr
  | pystr : String → PyStr
deriving DecidableEq

/-- How a PyStr prints when substituted into a template by str.format:
Python renders None as the literal text "None". -/
def PyStr.render : PyStr → String
  | PyStr.pynone => "None"
  | PyStr.pystr s => s

/-- Python truthiness of dict.get(key) on an optional field: a missing key
yields None (falsy); a stored None is falsy; a stored string is truthy
exactly when it is non-empty. -/
def truthy : Option PyStr → Bool
  | Option.none => false
  | some PyStr.pynone => false
  | some (PyStr.pystr s) => !s.isEmpty

/-- dict.get(key, fallback): the fallback applies only when the key is
missing, not when the key is present holding the value None. -/
def dget (field : Option PyStr) (fallback : String) : PyStr :=
  match field with
  | Option.none => PyStr.pystr fallback
  | some v => v

/-- Enum AutoReplyMode of bot.py, plus a constructor for any value outside
the closed enumeration (Python equality of such a value with an enum
member is always False). -/
inductive AutoReplyMode where
  | off
  | work_hours
  | always
  | custom
  | vacation
  | sick
  | unrecognized : String → AutoReplyMode
deriving DecidableEq

/-- Enum UserStatus of bot.py, plus a constructor for any value outside the
closed enumeration. -/
inductive UserStatus where
  | available
  | busy
  | meeting
  | vacation
  | sick
  | lunch
  | unrecognized : String → UserStatus
deriving DecidableEq

/-- The params dictionary handed to the engine: each field is an optional
key; a present key holds a PyStr (possibly None). -/
structure Params where
  timezone : Option PyStr
  custom_message : Option PyStr
  vacation_end : Option PyStr
  sick_until : Option PyStr
deriving DecidableEq

/-- The empty dictionary. -/
def Params.empty : Params :=
  Params.mk Option.none Option.none Option.none Option.none

/-- A local date-time as the engine observes it: datetime.weekday()
(0 = Monday .. 6 = Sunday) and datetime.hour (0..23). -/
structure LocalTime where
  weekday : Nat
  hour : Nat
deriving DecidableEq

/-- The exceptions the engine can raise. should_auto_reply can hit
AttributeError by calling .get on a None params. -/
inductive PyExn where
  | attributeError : PyExn
deriving DecidableEq

/-- self.responses of AutoReplyManager: the "default" entry. -/
def responses_default : String :=
  "👩‍💼 Я сейчас занята. Отвечу вам в ближайшее время!"

/-- self.responses "work_hours" entry. -/
def responses_work_hours : String :=
  "👩‍💼 Рабочий день окончен. Отвечу завтра с 9:00."

/-- self.responses "busy" entry. -/
def responses_busy : String :=
  "👩‍💼 В данный момент я занята. Перезвоню вам позже."

/-- self.responses "meeting" entry. -/
def responses_meeting : String :=
  "👩‍💼 Я на совещании. Отвечу после его окончания."

/-- self.responses "vacation" entry after .format(date=...): the template
split at its single placeholder. -/
def responses_vacation (date : String) : String :=
  "👩‍💼 Я в отпуске до " ++ date ++ ". По срочным вопросам напишите \x27СРОЧНО\x27."

/-- self.responses "sick" entry after .format(date=...). -/
def responses_sick (date : String) : String :=
  "👩‍💼 Я болею. Вернусь к работе " ++ date ++ ". Спасибо за понимание."

/-- self.responses "lunch" entry after .format(time=...). -/
def responses_lunch (t : String) : String :=
  "👩‍💼 Я на обеденном перерыве. Вернусь в " ++ t ++ "."

/-- self.responses "weekend" entry. -/
def responses_weekend : String :=
  "👩‍💼 Сегодня выходной. Отвечу в понедельник."

/-- self.responses "night" entry. -/
def responses_night : String :=
  "👩‍💼 Сейчас нерабочее время. Отвечу утром."

/-- AutoReplyManager.get_response.  The clock argument models
datetime.now(pytz.timezone(tz)); it is consulted only in the WORK_HOURS
branch, on the timezone value read from params.  The statement
params = params or \x7b\x7d normalizes a None (or empty) dictionary to
the empty dictionary, hence Option.getD Params.empty. -/
def get_response (mode : AutoReplyMode) (status : UserStatus)
    (params0 : Option Params) (message : Option String)
    (clock : PyStr → LocalTime) : Option String :=
  if mode = AutoReplyMode.off then
    Option.none
  else
    let params := params0.getD Params.empty
    if mode = AutoReplyMode.custom ∧ truthy params.custom_message then
      some (PyStr.render (params.custom_message.getD PyStr.pynone))
    else if status = UserStatus.vacation then
      some (responses_vacation (PyStr.render (dget params.vacation_end "неизвестно когда")))
    else if status = UserStatus.sick then
      some (responses_sick (PyStr.render (dget params.sick_until "скоро")))
    else if status = UserStatus.busy then
      some responses_busy
    else if status = UserStatus.meeting then
      some responses_meeting
    else if status = UserStatus.lunch then
      some (responses_lunch "14:00")
    else if mode = AutoReplyMode.work_hours then
      let now := clock (dget params.timezone "Europe/Moscow")
      if now.weekday ≥ 5 then
        some responses_weekend
      else if now.hour ≥ 22 ∨ now.hour < 9 then
        some responses_night
      else if 13 ≤ now.hour ∧ now.hour < 14 then
        some (responses_lunch "14:00")
      else if 9 ≤ now.hour ∧ now.hour < 18 then
        Option.none
      else
        some responses_work_hours
    else if mode = AutoReplyMode.always then
      some responses_default
    else
      Option.none

/-- AutoReplyManager.should_auto_reply.  Unlike get_response it does not
normalize a None params: reaching the WORK_HOURS branch with params None
executes None.get and raises AttributeError. -/
def should_auto_reply (mode : AutoReplyMode) (status : UserStatus)
    (params0 : Option Params) (clock : PyStr → LocalTime) : Except PyExn Bool :=
  if mode = AutoReplyMode.off then
    Except.ok false
  else if status = UserStatus.vacation ∨ status = UserStatus.sick ∨
      status = UserStatus.meeting then
    Except.ok true
  else if mode = AutoReplyMode.always then
    Except.ok true
  else if mode = AutoReplyMode.work_hours then
    match params0 with
    | Option.none => Except.error PyExn.attributeError
    | some params =>
      let now := clock (dget params.timezone "Europe/Moscow")
      if 9 ≤ now.hour ∧ now.hour < 18 ∧ now.weekday < 5 then
        Except.ok false
      else
        Except.ok true
  else if mode = AutoReplyMode.custom then
    Except.ok true
  else
    Except.ok false

/-- The per-user record as read by MaryAssistantBot.check_auto_reply:
autoreply_mode and status are the persisted strings; timezone is read by
direct indexing (get_user_data guarantees the key); the other three keys
are read with .get and may be absent. -/
structure UserData where
  autoreply_mode : String
  status : String
  timezone : PyStr
  custom_autoreply : Option PyStr
  vacation_end : Option PyStr
  sick_until : Option PyStr
deriving DecidableEq

/-- AutoReplyMode(value): Python Enum construction by value, None when the
value matches no member. -/
def modeOfString (s : String) : Option AutoReplyMode :=
  if s = "off" then some AutoReplyMode.off
  else if s = "work_hours" then some AutoReplyMode.work_hours
  else if s = "always" then some AutoReplyMode.always
  else if s = "custom" then some AutoReplyMode.custom
  else if s = "vacation" then some AutoReplyMode.vacation
  else if s = "sick" then some AutoReplyMode.sick
  else Option.none

/-- UserStatus(value): Python Enum construction by value. -/
def statusOfString (s : String) : Option UserStatus :=
  if s = "available" then some UserStatus.available
  else if s = "busy" then some UserStatus.busy
  else if s = "meeting" then some UserStatus.meeting
  else if s = "vacation" then some UserStatus.vacation
  else if s = "sick" then some UserStatus.sick
  else if s = "lunch" then some UserStatus.lunch
  else Option.none

/-- The try/except of check_auto_reply: if either enum construction fails,
both mode and status fall back to WORK_HOURS / AVAILABLE. -/
def parse_mode_status (m s : String) : AutoReplyMode × UserStatus :=
  match modeOfString m, statusOfString s with
  | some mv, some sv => (mv, sv)
  | _, _ => (AutoReplyMode.work_hours, UserStatus.available)

/-- The params dictionary literal built inside check_auto_reply: every key
is written, so every field of the result is present; user_data.get(k)
collapses an absent user field to the value None. -/
def build_params (u : UserData) : Params :=
  Params.mk (some u.timezone) (some (u.custom_autoreply.getD PyStr.pynone))
    (some (u.vacation_end.getD PyStr.pynone)) (some (u.sick_until.getD PyStr.pynone))

/-- MaryAssistantBot.check_auto_reply: parse mode and status with fallback,
build the params dictionary, gate on should_auto_reply, then call
get_response. -/
def check_auto_reply (u : UserData) (message : String)
    (clock : PyStr → LocalTime) : Except PyExn (Option String) :=
  let ms := parse_mode_status u.autoreply_mode u.status
  let params := build_params u
  match should_auto_reply ms.1 ms.2 (some params) clock with
  | Except.error e => Except.error e
  | Except.ok false => Except.ok Option.none
  | Except.ok true => Except.ok (get_response ms.1 ms.2 (some params) (some message) clock)

/-- C3: Mode Off dominates everything: for every status (including
Vacation, Sick and Meeting), every params dictionary (present or None),
every message and every clock, should_auto_reply returns false and
get_response returns None. -/
theorem off_dominates (status : UserStatus) (params0 : Option Params)
    (message : Option String) (clock : PyStr → LocalTime) :
    should_auto_reply AutoReplyMode.off status params0 clock = Except.ok false ∧
    get_response AutoReplyMode.off status params0 message clock = Option.none := by
  constructor <;> rfl

/-- C8: the engine output is a pure function of (mode, status, params,
current time): the message argument of get_response is never consulted,
so two calls agreeing on mode, status, params and the clock produce
identical output whatever the messages; should_auto_reply does not even
take the message.  Purity and idempotence over identical inputs hold by
construction since the wall-clock read is the explicit clock argument. -/
theorem engine_pure_in_declared_inputs (mode : AutoReplyMode) (status : UserStatus)
    (params0 : Option Params) (message1 message2 : Option String)
    (clock : PyStr → LocalTime) :
    get_response mode status params0 message1 clock =
      get_response mode status params0 message2 clock := rfl

/-- C4: status override in the intercept decision: for every mode other
than Off, every params (even a None dictionary) and every clock, a status
of Vacation, Sick or Meeting makes should_auto_reply return true. -/
theorem status_override_intercepts (mode : AutoReplyMode) (status : UserStatus)
    (params0 : Option Params) (clock : PyStr → LocalTime)
    (hmode : mode ≠ AutoReplyMode.off)
    (hstatus : status = UserStatus.vacation ∨ status = UserStatus.sick ∨
      status = UserStatus.meeting) :
    should_auto_reply mode status params0 clock = Except.ok true := by
  unfold should_auto_reply
  rw [if_neg hmode, if_pos hstatus]

/-- Witness for C4 at mode Always, status Meeting, params None. -/
theorem status_override_intercepts_witness :
    should_auto_reply AutoReplyMode.always UserStatus.meeting Option.none
      (fun _ => LocalTime.mk 0 10) = Except.ok true :=
  status_override_intercepts AutoReplyMode.always UserStatus.meeting Option.none
    (fun _ => LocalTime.mk 0 10) (by decide) (Or.inr (Or.inr rfl))

/-- C10: the two engine operations handle an omitted params argument
asymmetrically: should_auto_reply in WORK_HOURS mode with a status outside
the override set reaches params.get on None and raises AttributeError,
while get_response normalizes a None params to the empty dictionary and
behaves exactly as if the empty dictionary had been passed. -/
theorem params_none_asymmetry (mode : AutoReplyMode) (status : UserStatus)
    (message : Option String) (clock : PyStr → LocalTime)
    (hstatus : ¬(status = UserStatus.vacation ∨ status = UserStatus.sick ∨
      status = UserStatus.meeting)) :
    should_auto_reply AutoReplyMode.work_hours status Option.none clock =
      Except.error PyExn.attributeError ∧
    get_response mode status Option.none message clock =
      get_response mode status (some Params.empty) message clock := by
  constructor
  · unfold should_auto_reply
    rw [if_neg (by decide), if_neg hstatus, if_neg (by decide), if_pos rfl]
  · rfl

/-- Witness for C10 at status Available with a fixed clock. -/
theorem params_none_asymmetry_witness :
    should_auto_reply AutoReplyMode.work_hours UserStatus.available Option.none
      (fun _ => LocalTime.mk 0 10) = Except.error PyExn.attributeError :=
  (params_none_asymmetry AutoReplyMode.always UserStatus.available Option.none
    (fun _ => LocalTime.mk 0 10) (by decide)).1

/-- C7 counterexample: an unrecognized mode does not by itself force the
no-interception, no-response outcome: with mode an unrecognized value and
status Meeting, should_auto_reply returns true and get_response renders
the meeting template, contradicting the claim as stated. -/
theorem unrecognized_mode_meeting_intercepts :
    should_auto_reply (AutoReplyMode.unrecognized "archived") UserStatus.meeting
      (some Params.empty) (fun _ => LocalTime.mk 0 10) = Except.ok true ∧
    get_response (AutoReplyMode.unrecognized "archived") UserStatus.meeting
      (some Params.empty) Option.none (fun _ => LocalTime.mk 0 10) =
      some responses_meeting := by
  constructor <;> rfl

/-- C7 amended: an unrecognized value matches no rule that tests it, so
when both mode and status are unrecognized every branch is skipped and
the final fall-through branches yield false and None without raising,
for every params (present or None), message and clock; but a recognized
value in the other field may still trigger its own rule. -/
theorem unrecognized_fall_through (a b : String) (params0 : Option Params)
    (message : Option String) (clock : PyStr → LocalTime) :
    should_auto_reply (AutoReplyMode.unrecognized a) (UserStatus.unrecognized b)
      params0 clock = Except.ok false ∧
    get_response (AutoReplyMode.unrecognized a) (UserStatus.unrecognized b)
      params0 message clock = Option.none := by
  constructor <;> rfl

/-- C1 counterexample: at Monday 10:00 local (a weekday hour inside
[9,18)) with status Busy — a status outside the override set, explicitly
included by the claim — should_auto_reply is false as claimed, but
get_response renders the busy template instead of returning None: the
status rules of get_response precede its work-hours hour gate. -/
theorem work_hours_daytime_busy_renders_busy :
    should_auto_reply AutoReplyMode.work_hours UserStatus.busy (some Params.empty)
      (fun _ => LocalTime.mk 0 10) = Except.ok false ∧
    get_response AutoReplyMode.work_hours UserStatus.busy (some Params.empty)
      Option.none (fun _ => LocalTime.mk 0 10) = some responses_busy := by
  constructor <;> rfl

/-- C1 amended: for mode WorkHours with status outside
\x7bVacation, Sick, Meeting\x7d, at a weekday local hour in [9,18),
should_auto_reply returns false for every such status; get_response
returns None only when additionally the status has no rendering rule of
its own (so not Busy and not Lunch) and the local hour is not in the
lunch band [13,14) (where get_response renders the lunch template). -/
theorem work_hours_weekday_daytime_silence (status : UserStatus) (p : Params)
    (message : Option String) (clock : PyStr → LocalTime)
    (h1 : status ≠ UserStatus.vacation) (h2 : status ≠ UserStatus.sick)
    (h3 : status ≠ UserStatus.meeting)
    (hw : (clock (dget p.timezone "Europe/Moscow")).weekday < 5)
    (h9 : 9 ≤ (clock (dget p.timezone "Europe/Moscow")).hour)
    (h18 : (clock (dget p.timezone "Europe/Moscow")).hour < 18) :
    should_auto_reply AutoReplyMode.work_hours status (some p) clock =
      Except.ok false ∧
    (status ≠ UserStatus.busy → status ≠ UserStatus.lunch →
      ¬(13 ≤ (clock (dget p.timezone "Europe/Moscow")).hour ∧
        (clock (dget p.timezone "Europe/Moscow")).hour < 14) →
      get_response AutoReplyMode.work_hours status (some p) message clock =
        Option.none) := by
  constructor
  · simp [should_auto_reply, h1, h2, h3, h9, h18, hw]
  · intro hb hl hlunch
    have hnw : ¬((clock (dget p.timezone "Europe/Moscow")).weekday ≥ 5) := by omega
    have hnight : ¬((clock (dget p.timezone "Europe/Moscow")).hour ≥ 22 ∨
        (clock (dget p.timezone "Europe/Moscow")).hour < 9) := by omega
    simp [get_response, h1, h2, h3, hb, hl, hnw, hnight, hlunch, h9, h18]

/-- Witness for C1 amended at status Available, Wednesday 10:00. -/
theorem work_hours_weekday_daytime_silence_witness :
    should_auto_reply AutoReplyMode.work_hours UserStatus.available (some Params.empty)
      (fun _ => LocalTime.mk 2 10) = Except.ok false ∧
    get_response AutoReplyMode.work_hours UserStatus.available (some Params.empty)
      Option.none (fun _ => LocalTime.mk 2 10) = Option.none := by
  have h := work_hours_weekday_daytime_silence UserStatus.available Params.empty
    Option.none (fun _ => LocalTime.mk 2 10) (by decide) (by decide) (by decide)
    (by decide) (by decide) (by decide)
  exact ⟨h.1, h.2 (by decide) (by decide) (by decide)⟩

/-- C2: for mode WorkHours and status Available, get_response resolves the
current time through the clock on params.timezone (defaulting to
Europe/Moscow) and applies, in order: weekend (weekday 5 or 6) renders the
weekend template; local hour at least 22 or below 9 renders the night
template; hour in [13,14) renders the lunch template with time 14:00;
hour in [9,18) outside the lunch band returns None; and the remaining
evening band [18,22) renders the work_hours template. -/
theorem work_hours_available_bands (p : Params) (message : Option String)
    (clock : PyStr → LocalTime) :
    ((clock (dget p.timezone "Europe/Moscow")).weekday ≥ 5 →
      get_response AutoReplyMode.work_hours UserStatus.available (some p) message clock =
        some responses_weekend) ∧
    ((clock (dget p.timezone "Europe/Moscow")).weekday < 5 →
      ((clock (dget p.timezone "Europe/Moscow")).hour ≥ 22 ∨
        (clock (dget p.timezone "Europe/Moscow")).hour < 9) →
      get_response AutoReplyMode.work_hours UserStatus.available (some p) message clock =
        some responses_night) ∧
    ((clock (dget p.timezone "Europe/Moscow")).weekday < 5 →
      13 ≤ (clock (dget p.timezone "Europe/Moscow")).hour →
      (clock (dget p.timezone "Europe/Moscow")).hour < 14 →
      get_response AutoReplyMode.work_hours UserStatus.available (some p) message clock =
        some (responses_lunch "14:00")) ∧
    ((clock (dget p.timezone "Europe/Moscow")).weekday < 5 →
      9 ≤ (clock (dget p.timezone "Europe/Moscow")).hour →
      (clock (dget p.timezone "Europe/Moscow")).hour < 18 →
      ¬(13 ≤ (clock (dget p.timezone "Europe/Moscow")).hour ∧
        (clock (dget p.timezone "Europe/Moscow")).hour < 14) →
      get_response AutoReplyMode.work_hours UserStatus.available (some p) message clock =
        Option.none) ∧
    ((clock (dget p.timezone "Europe/Moscow")).weekday < 5 →
      18 ≤ (clock (dget p.timezone "Europe/Moscow")).hour →
      (clock (dget p.timezone "Europe/Moscow")).hour < 22 →
      get_response AutoReplyMode.work_hours UserStatus.available (some p) message clock =
        some responses_work_hours) := by
  refine ⟨?_, ?_, ?_, ?_, ?_⟩
  · intro hwk
    simp [get_response, hwk]
  · intro hw hN
    have hnw : ¬((clock (dget p.timezone "Europe/Moscow")).weekday ≥ 5) := by omega
    simp [get_response, hnw, hN]
  · intro hw h13 h14
    have hnw : ¬((clock (dget p.timezone "Europe/Moscow")).weekday ≥ 5) := by omega
    have hnight : ¬((clock (dget p.timezone "Europe/Moscow")).hour ≥ 22 ∨
        (clock (dget p.timezone "Europe/Moscow")).hour < 9) := by omega
    simp [get_response, hnw, hnight, h13, h14]
  · intro hw h9 h18 hlunch
    have hnw : ¬((clock (dget p.timezone "Europe/Moscow")).weekday ≥ 5) := by omega
    have hnight : ¬((clock (dget p.timezone "Europe/Moscow")).hour ≥ 22 ∨
        (clock (dget p.timezone "Europe/Moscow")).hour < 9) := by omega
    simp [get_response, hnw, hnight, hlunch, h9, h18]
  · intro hw h18 h22
    have hnw : ¬((clock (dget p.timezone "Europe/Moscow")).weekday ≥ 5) := by omega
    have hnight : ¬((clock (dget p.timezone "Europe/Moscow")).hour ≥ 22 ∨
        (clock (dget p.timezone "Europe/Moscow")).hour < 9) := by omega
    have hnl : ¬(13 ≤ (clock (dget p.timezone "Europe/Moscow")).hour ∧
        (clock (dget p.timezone "Europe/Moscow")).hour < 14) := by omega
    have hnd : ¬(9 ≤ (clock (dget p.timezone "Europe/Moscow")).hour ∧
        (clock (dget p.timezone "Europe/Moscow")).hour < 18) := by omega
    simp [get_response, hnw, hnight, hnl, hnd]

/-- Witness for C2 in the night band: Monday 23:00 renders the night
template. -/
theorem work_hours_available_bands_witness :
    get_response AutoReplyMode.work_hours UserStatus.available (some Params.empty)
      Option.none (fun _ => LocalTime.mk 0 23) = some responses_night :=
  (work_hours_available_bands Params.empty Option.none
    (fun _ => LocalTime.mk 0 23)).2.1 (by decide) (Or.inl (by decide))

/-- C5 counterexample: an empty custom message is present in the
dictionary but falsy in Python, so the Custom branch is skipped: with
mode Custom, status Available and custom_message the empty string,
get_response returns None instead of the custom message text. -/
theorem custom_empty_message_not_returned :
    get_response AutoReplyMode.custom UserStatus.available
      (some (Params.mk Option.none (some (PyStr.pystr "")) Option.none Option.none))
      Option.none (fun _ => LocalTime.mk 0 10) = Option.none := by
  rfl

/-- C5 amended: when mode is Custom and params.custom_message is present
and non-empty (a truthy value), get_response returns exactly that text
verbatim, and since this rule precedes the status rules it wins for every
status, including Vacation, Sick, Busy, Meeting and Lunch. -/
theorem custom_message_precedence (status : UserStatus) (p : Params)
    (message : Option String) (clock : PyStr → LocalTime) (s : String)
    (hs : s ≠ "") (hp : p.custom_message = some (PyStr.pystr s)) :
    get_response AutoReplyMode.custom status (some p) message clock = some s := by
  have ht : truthy (some (PyStr.pystr s)) = true := by
    show (!s.isEmpty) = true
    cases hse : s.isEmpty with
    | false => rfl
    | true => exact absurd ((String.isEmpty_iff s).mp hse) hs
  simp [get_response, hp, ht, PyStr.render]

/-- Witness for C5 amended: custom message Back in 5 beats status
Vacation. -/
theorem custom_message_precedence_witness :
    get_response AutoReplyMode.custom UserStatus.vacation
      (some (Params.mk Option.none (some (PyStr.pystr "Back in 5")) Option.none Option.none))
      Option.none (fun _ => LocalTime.mk 0 10) = some "Back in 5" :=
  custom_message_precedence UserStatus.vacation
    (Params.mk Option.none (some (PyStr.pystr "Back in 5")) Option.none Option.none)
    Option.none (fun _ => LocalTime.mk 0 10) "Back in 5" (by decide) rfl

/-- C6: missing auxiliary fields never raise: provided mode is not Off and
the Custom rule does not fire first, a Vacation status with the
vacation_end key absent renders the vacation template with the fallback
text meaning unknown, and a Sick status with the sick_until key absent
renders the sick template with the fallback text meaning soon; when the
key is present with a string value, the rendered text contains that
value. -/
theorem aux_field_fallbacks (mode : AutoReplyMode) (p : Params)
    (message : Option String) (clock : PyStr → LocalTime)
    (hmode : mode ≠ AutoReplyMode.off)
    (hcustom : ¬(mode = AutoReplyMode.custom ∧ truthy p.custom_message)) :
    (p.vacation_end = Option.none →
      get_response mode UserStatus.vacation (some p) message clock =
        some (responses_vacation "неизвестно когда")) ∧
    (∀ v : String, p.vacation_end = some (PyStr.pystr v) →
      get_response mode UserStatus.vacation (some p) message clock =
        some (responses_vacation v) ∧
      ∃ a b : String, responses_vacation v = a ++ v ++ b) ∧
    (p.sick_until = Option.none →
      get_response mode UserStatus.sick (some p) message clock =
        some (responses_sick "скоро")) ∧
    (∀ v : String, p.sick_until = some (PyStr.pystr v) →
      get_response mode UserStatus.sick (some p) message clock =
        some (responses_sick v) ∧
      ∃ a b : String, responses_sick v = a ++ v ++ b) := by
  refine ⟨?_, ?_, ?_, ?_⟩
  · intro h
    simp [get_response, hmode, hcustom, h, dget, PyStr.render]
  · intro v h
    refine ⟨?_, "👩‍💼 Я в отпуске до ",
      ". По срочным вопросам напишите \x27СРОЧНО\x27.", rfl⟩
    simp [get_response, hmode, hcustom, h, dget, PyStr.render]
  · intro h
    simp [get_response, hmode, hcustom, h, dget, PyStr.render]
  · intro v h
    refine ⟨?_, "👩‍💼 Я болею. Вернусь к работе ",
      ". Спасибо за понимание.", rfl⟩
    simp [get_response, hmode, hcustom, h, dget, PyStr.render]

/-- Witness for C6: mode Always, Vacation status, vacation_end absent
renders the fallback text. -/
theorem aux_field_fallbacks_witness :
    get_response AutoReplyMode.always UserStatus.vacation (some Params.empty)
      Option.none (fun _ => LocalTime.mk 0 10) =
      some (responses_vacation "неизвестно когда") :=
  (aux_field_fallbacks AutoReplyMode.always Params.empty Option.none
    (fun _ => LocalTime.mk 0 10) (by decide) (by decide)).1 rfl

/-- C9: check_auto_reply writes every key of the params dictionary, so
vacation_end and sick_until are always present (holding None when the
user record has no stored value), the fallback of dict.get never applies,
and a user with status vacation (or sick) and no stored end date gets the
template rendered with the literal text None, not the documented fallback
placeholder. -/
theorem check_auto_reply_substitutes_none (u : UserData) (message : String)
    (clock : PyStr → LocalTime) :
    ((build_params u).vacation_end ≠ Option.none ∧
      (build_params u).sick_until ≠ Option.none) ∧
    (u.autoreply_mode = "vacation" → u.status = "vacation" →
      u.vacation_end.getD PyStr.pynone = PyStr.pynone →
      check_auto_reply u message clock =
        Except.ok (some (responses_vacation "None"))) ∧
    (u.autoreply_mode = "sick" → u.status = "sick" →
      u.sick_until.getD PyStr.pynone = PyStr.pynone →
      check_auto_reply u message clock =
        Except.ok (some (responses_sick "None"))) ∧
    responses_vacation "None" ≠ responses_vacation "неизвестно когда" ∧
    responses_sick "None" ≠ responses_sick "скоро" := by
  refine ⟨⟨by simp [build_params], by simp [build_params]⟩, ?_, ?_, by decide, by decide⟩
  · intro hm hst hv
    simp only [check_auto_reply, hm, hst]
    show Except.ok (some (responses_vacation
      (PyStr.render (u.vacation_end.getD PyStr.pynone)))) =
      Except.ok (some (responses_vacation "None"))
    rw [hv]
    rfl
  · intro hm hst hv
    simp only [check_auto_reply, hm, hst]
    show Except.ok (some (responses_sick
      (PyStr.render (u.sick_until.getD PyStr.pynone)))) =
      Except.ok (some (responses_sick "None"))
    rw [hv]
    rfl

/-- Witness for C9: a vacation user with no stored vacation_end receives
the text rendered with the literal None. -/
theorem check_auto_reply_substitutes_none_witness :
    check_auto_reply
      (UserData.mk "vacation" "vacation" (PyStr.pystr "Europe/Moscow")
        Option.none Option.none Option.none) "hello"
      (fun _ => LocalTime.mk 0 10) =
      Except.ok (some (responses_vacation "None")) :=
  (check_auto_reply_substitutes_none
    (UserData.mk "vacation" "vacation" (PyStr.pystr "Europe/Moscow")
      Option.none Option.none Option.none) "hello"
    (fun _ => LocalTime.mk 0 10)).2.1 rfl rfl rfl

end MaryBot
